import Mathlib

/-!
Verification of the movement-and-interaction coordinator of
`src/src/scenes/KitchenScene.ts` (Phaser scene `KitchenScene`).

JavaScript numbers are modelled as real numbers: the source computes with
`Phaser.Math.Distance.Between` (a Euclidean square root) and
`Phaser.Math.Angle.Between` (`atan2`, modelled as the argument of a complex
number), so the state space is inherently real-valued and the definitions
below are `noncomputable` for that reason only.

Rendering-only collaborators (tweens, destination markers, prompts, labels,
the background) do not feed back into the coordinator state and are not
modelled.  The arrival feedback `onReachedStation` is modelled by appending
the station name to an `arrivals` log so that callback counts can be stated.
The viewport size (`this.cameras.main` / `gameSize`) is passed explicitly.
-/

/-- A 2D point in absolute pixel coordinates. -/
@[ext]
structure Point where
  x : ℝ
  y : ℝ

/-- An interactive station: its name and its current anchor position
(the `position` field of the `Station` interface in the source). -/
structure Station where
  name : String
  pos : Point

/-- The movement-relevant mutable state of `KitchenScene`:
the actor sprite position (`helloKitty`), its shadow ellipse, the moving
flag, the stored movement target, the station binding `currentStation`,
the sprite `flipX` orientation, the cached viewport size
(`lastWidth`/`lastHeight`) and the log of fired arrival callbacks. -/
structure SceneState where
  kitty : Point
  shadow : Point
  isMoving : Bool
  targetPosition : Option Point
  currentStation : Option Station
  flipX : Bool
  lastWidth : ℝ
  lastHeight : ℝ
  arrivals : List String

/-- `this.moveSpeed = 200` pixels per second. -/
noncomputable def moveSpeed : ℝ := 200

/-- `Phaser.Math.Clamp(value, min, max) = Math.max(min, Math.min(max, value))`. -/
noncomputable def clamp (value lo hi : ℝ) : ℝ := max lo (min hi value)

/-- `Phaser.Math.Distance.Between(x1, y1, x2, y2)`. -/
noncomputable def distanceBetween (x1 y1 x2 y2 : ℝ) : ℝ :=
  Real.sqrt ((x1 - x2) ^ 2 + (y1 - y2) ^ 2)

/-- `Phaser.Math.Angle.Between(x1, y1, x2, y2) = atan2(y2 - y1, x2 - x1)`,
modelled as the argument of the complex number `(x2 - x1) + (y2 - y1) * I`. -/
noncomputable def angleBetween (x1 y1 x2 y2 : ℝ) : ℝ :=
  Complex.arg ⟨x2 - x1, y2 - y1⟩

/-- `moveToPosition(x, y)` (KitchenScene.ts lines 407-420): clamps the raw
target into `[50, width - 50] × [100, height - 50]`, stores it and raises
the moving flag.  The destination-marker effect is visual only.  Note that
`currentStation` is left untouched. -/
noncomputable def moveToPosition (width height x y : ℝ) (s : SceneState) : SceneState :=
  let cx := clamp x 50 (width - 50)
  let cy := clamp y 100 (height - 50)
  { s with targetPosition := some ⟨cx, cy⟩, isMoving := true }

/-- `moveToStation(station)` (lines 393-402): dispatches a move to the point
80 px below the station anchor and records the station binding. -/
noncomputable def moveToStation (width height : ℝ) (station : Station)
    (s : SceneState) : SceneState :=
  let targetX := station.pos.x
  let targetY := station.pos.y + 80
  let s1 := moveToPosition width height targetX targetY s
  { s1 with currentStation := some station }

/-- `onReachedStation(station)` (lines 488-505): fires the arrival feedback
(logged here) and resets `currentStation` to null.  The scale tween and the
interaction prompt are visual only. -/
def onReachedStation (station : Station) (s : SceneState) : SceneState :=
  { s with arrivals := s.arrivals ++ [station.name], currentStation := none }

/-- `moveHelloKittyToTarget(delta)` (lines 425-482): the per-frame kinematic
step.  Within 5 px of the target the actor snaps onto it, the moving flag
drops, the shadow follows, and a bound station fires its callback; otherwise
the actor advances `moveSpeed * delta / 1000` px along the direction angle,
the shadow follows, and `flipX` is recomputed.  The stored `targetPosition`
is not cleared by the arrival branch. -/
noncomputable def moveHelloKittyToTarget (delta : ℝ) (s : SceneState) : SceneState :=
  match s.targetPosition with
  | none => s
  | some t =>
      let d := distanceBetween s.kitty.x s.kitty.y t.x t.y
      if d < 5 then
        let s1 : SceneState :=
          { s with kitty := t, isMoving := false, shadow := ⟨t.x, t.y + 40⟩ }
        match s.currentStation with
        | some st => onReachedStation st s1
        | none => s1
      else
        let angle := angleBetween s.kitty.x s.kitty.y t.x t.y
        let moveDistance := moveSpeed * delta / 1000
        let nx := s.kitty.x + Real.cos angle * moveDistance
        let ny := s.kitty.y + Real.sin angle * moveDistance
        { s with kitty := ⟨nx, ny⟩, shadow := ⟨nx, ny + 40⟩,
                 flipX := if t.x < nx then true else false }

/-- `update(_time, delta)` (lines 79-84): one simulated tick; guards on the
moving flag and the presence of a target. -/
noncomputable def update (delta : ℝ) (s : SceneState) : SceneState :=
  if s.isMoving ∧ s.targetPosition.isSome then moveHelloKittyToTarget delta s else s

/-- A sequence of simulated frames with the given per-frame deltas. -/
noncomputable def runTicks (ds : List ℝ) (s : SceneState) : SceneState :=
  ds.foldl (fun acc d => update d acc) s

/-- The `helloKitty` branch of `layout(width, height)` (lines 136-143):
recentre the idle actor (and its shadow) only when no movement has been
issued.  Station, customer and text repositioning does not touch the state
modelled here. -/
noncomputable def layoutKitty (width height : ℝ) (s : SceneState) : SceneState :=
  if s.isMoving = false ∧ s.targetPosition.isSome = false then
    { s with kitty := ⟨width / 2, height * 0.5⟩,
             shadow := ⟨width / 2, height * 0.5 + 40⟩ }
  else s

/-- `handleResize(gameSize, ...)` (lines 179-215): proportionally rescales
the actor (shadow re-derived) and any stored target from the cached old
viewport (`lastWidth || width`, `lastHeight || height`) to the new one, then
reruns `layout` and caches the new size. -/
noncomputable def handleResize (width height : ℝ) (s : SceneState) : SceneState :=
  let oldWidth := if s.lastWidth = 0 then width else s.lastWidth
  let oldHeight := if s.lastHeight = 0 then height else s.lastHeight
  let relX := s.kitty.x / oldWidth
  let relY := s.kitty.y / oldHeight
  let kittyNew : Point := ⟨relX * width, relY * height⟩
  let s1 : SceneState :=
    { s with kitty := kittyNew, shadow := ⟨kittyNew.x, kittyNew.y + 40⟩ }
  let s2 : SceneState :=
    match s1.targetPosition with
    | some t =>
        let tNew : Point := ⟨t.x / oldWidth * width, t.y / oldHeight * height⟩
        { s1 with targetPosition := some tNew }
    | none => s1
  let s3 := layoutKitty width height s2
  { s3 with lastWidth := width, lastHeight := height }

/-! ### Basic helper lemmas -/

theorem clamp_of_mem {value lo hi : ℝ} (h1 : lo ≤ value) (h2 : value ≤ hi) :
    clamp value lo hi = value := by
  rw [clamp, min_eq_right h2, max_eq_right h1]

theorem clamp_mem {lo hi : ℝ} (value : ℝ) (h : lo ≤ hi) :
    lo ≤ clamp value lo hi ∧ clamp value lo hi ≤ hi := by
  refine ⟨le_max_left _ _, max_le h (min_le_left _ _)⟩

theorem distanceBetween_nonneg (x1 y1 x2 y2 : ℝ) :
    0 ≤ distanceBetween x1 y1 x2 y2 :=
  Real.sqrt_nonneg _

theorem distanceBetween_same_x (x y1 y2 : ℝ) :
    distanceBetween x y1 x y2 = |y1 - y2| := by
  rw [distanceBetween]
  simp [Real.sqrt_sq_eq_abs]

/-! ### Single-tick characterizations -/

theorem update_of_not_moving {s : SceneState} (delta : ℝ) (hm : s.isMoving = false) :
    update delta s = s := by
  rw [update, if_neg]
  simp [hm]

theorem update_of_no_target {s : SceneState} (delta : ℝ)
    (ht : s.targetPosition = none) : update delta s = s := by
  rw [update, if_neg]
  simp [ht]

theorem update_arrival_station {s : SceneState} {t : Point} {st : Station} (delta : ℝ)
    (hm : s.isMoving = true) (ht : s.targetPosition = some t)
    (hst : s.currentStation = some st)
    (hd : distanceBetween s.kitty.x s.kitty.y t.x t.y < 5) :
    update delta s =
      { s with kitty := t, shadow := ⟨t.x, t.y + 40⟩, isMoving := false,
               currentStation := none, arrivals := s.arrivals ++ [st.name] } := by
  rw [update, if_pos (by simp [hm, ht])]
  rw [moveHelloKittyToTarget, ht]
  simp only [if_pos hd, hst, onReachedStation]

theorem update_arrival_free {s : SceneState} {t : Point} (delta : ℝ)
    (hm : s.isMoving = true) (ht : s.targetPosition = some t)
    (hst : s.currentStation = none)
    (hd : distanceBetween s.kitty.x s.kitty.y t.x t.y < 5) :
    update delta s =
      { s with kitty := t, shadow := ⟨t.x, t.y + 40⟩, isMoving := false } := by
  rw [update, if_pos (by simp [hm, ht])]
  rw [moveHelloKittyToTarget, ht]
  simp only [if_pos hd, hst]

theorem update_move {s : SceneState} {t : Point} (delta : ℝ)
    (hm : s.isMoving = true) (ht : s.targetPosition = some t)
    (hd : ¬ distanceBetween s.kitty.x s.kitty.y t.x t.y < 5) :
    update delta s =
      { s with
        kitty := ⟨s.kitty.x + Real.cos (angleBetween s.kitty.x s.kitty.y t.x t.y) *
                    (moveSpeed * delta / 1000),
                  s.kitty.y + Real.sin (angleBetween s.kitty.x s.kitty.y t.x t.y) *
                    (moveSpeed * delta / 1000)⟩,
        shadow := ⟨s.kitty.x + Real.cos (angleBetween s.kitty.x s.kitty.y t.x t.y) *
                    (moveSpeed * delta / 1000),
                  s.kitty.y + Real.sin (angleBetween s.kitty.x s.kitty.y t.x t.y) *
                    (moveSpeed * delta / 1000) + 40⟩,
        flipX := if t.x < s.kitty.x + Real.cos (angleBetween s.kitty.x s.kitty.y t.x t.y) *
                    (moveSpeed * delta / 1000) then true else false } := by
  rw [update, if_pos (by simp [hm, ht])]
  rw [moveHelloKittyToTarget, ht]
  simp only [if_neg hd]

/-! ### Runs of ticks -/

theorem runTicks_nil (s : SceneState) : runTicks [] s = s := rfl

theorem runTicks_cons (d : ℝ) (ds : List ℝ) (s : SceneState) :
    runTicks (d :: ds) s = runTicks ds (update d s) := rfl

theorem runTicks_of_not_moving {s : SceneState} (ds : List ℝ)
    (hm : s.isMoving = false) : runTicks ds s = s := by
  induction ds with
  | nil => rfl
  | cons d ds ih =>
      rw [runTicks_cons, update_of_not_moving d hm]
      exact ih

/-- Callback accounting for a station-bound run: starting from a moving state
bound to station `st`, a run of ticks appends exactly `[st.name]` to the
arrival log when it ends arrived, and nothing when it is still moving. -/
theorem arrivals_station_run {t : Point} {st : Station} (ds : List ℝ) :
    ∀ s : SceneState, s.isMoving = true → s.targetPosition = some t →
      s.currentStation = some st →
      (runTicks ds s).arrivals =
        s.arrivals ++ (if (runTicks ds s).isMoving then [] else [st.name]) := by
  induction ds with
  | nil =>
      intro s hm ht _
      rw [runTicks_nil, hm]
      simp
  | cons d ds ih =>
      intro s hm ht hst
      rw [runTicks_cons]
      by_cases hd : distanceBetween s.kitty.x s.kitty.y t.x t.y < 5
      · rw [update_arrival_station d hm ht hst hd]
        rw [runTicks_of_not_moving ds (by simp)]
        simp
      · rw [update_move d hm ht hd]
        rw [ih _ (by simp [hm]) (by simp [ht]) (by simp [hst])]

/-- Callback accounting with no station binding: if `currentStation` is null,
ticks never touch the arrival log and the binding stays null. -/
theorem arrivals_free_run (ds : List ℝ) :
    ∀ s : SceneState, s.currentStation = none →
      (runTicks ds s).arrivals = s.arrivals ∧
      (runTicks ds s).currentStation = none := by
  induction ds with
  | nil =>
      intro s hst
      exact ⟨rfl, hst⟩
  | cons d ds ih =>
      intro s hst
      rw [runTicks_cons]
      rcases hmov : s.isMoving with _ | _
      · rw [update_of_not_moving d hmov]
        exact ih s hst
      · rcases htp : s.targetPosition with _ | t
        · rw [update_of_no_target d htp]
          exact ih s hst
        · by_cases hd : distanceBetween s.kitty.x s.kitty.y t.x t.y < 5
          · rw [update_arrival_free d hmov htp hst hd]
            exact ih _ (by simp [hst])
          · rw [update_move d hmov htp hd]
            exact ih _ (by simp [hst])

/-! ### Geometry of the kinematic step -/

theorem complexAbs_eq_distance (px py tx ty : ℝ) :
    Complex.abs ⟨tx - px, ty - py⟩ = distanceBetween px py tx ty := by
  rw [Complex.abs_apply, Complex.normSq_mk, distanceBetween]
  congr 1
  ring

theorem cos_angleBetween {px py tx ty : ℝ}
    (hd : distanceBetween px py tx ty ≠ 0) :
    Real.cos (angleBetween px py tx ty) =
      (tx - px) / distanceBetween px py tx ty := by
  have habs := complexAbs_eq_distance px py tx ty
  have hz : (⟨tx - px, ty - py⟩ : ℂ) ≠ 0 := by
    intro h0
    rw [h0] at habs
    simp only [map_zero] at habs
    exact hd habs.symm
  rw [angleBetween, Complex.cos_arg hz, habs]

theorem sin_angleBetween (px py tx ty : ℝ) :
    Real.sin (angleBetween px py tx ty) =
      (ty - py) / distanceBetween px py tx ty := by
  rw [angleBetween, Complex.sin_arg, complexAbs_eq_distance]

/-- The exact effect of one non-arrival kinematic step on the distance to the
target: stepping `m` pixels along the direction angle turns distance `D` into
`|D - m|`. -/
theorem distance_after_step (px py tx ty m : ℝ)
    (hd : distanceBetween px py tx ty ≠ 0) :
    distanceBetween
      (px + Real.cos (angleBetween px py tx ty) * m)
      (py + Real.sin (angleBetween px py tx ty) * m) tx ty
      = |distanceBetween px py tx ty - m| := by
  have hD0 : 0 ≤ distanceBetween px py tx ty := distanceBetween_nonneg px py tx ty
  have hD2 : (px - tx) ^ 2 + (py - ty) ^ 2 = distanceBetween px py tx ty ^ 2 := by
    rw [distanceBetween, Real.sq_sqrt (by positivity)]
  rw [cos_angleBetween hd, sin_angleBetween]
  rw [distanceBetween]
  have hx : px + (tx - px) / distanceBetween px py tx ty * m - tx =
      (px - tx) * (distanceBetween px py tx ty - m) / distanceBetween px py tx ty := by
    field_simp
    ring
  have hy : py + (ty - py) / distanceBetween px py tx ty * m - ty =
      (py - ty) * (distanceBetween px py tx ty - m) / distanceBetween px py tx ty := by
    field_simp
    ring
  rw [hx, hy]
  have key : ((px - tx) * (distanceBetween px py tx ty - m) / distanceBetween px py tx ty) ^ 2 +
      ((py - ty) * (distanceBetween px py tx ty - m) / distanceBetween px py tx ty) ^ 2 =
      (distanceBetween px py tx ty - m) ^ 2 := by
    field_simp
    linear_combination (distanceBetween px py tx ty - m) ^ 2 * hD2
  rw [key, Real.sqrt_sq_eq_abs]

/-- Distance evolution of one full `update` tick in the non-arrival branch. -/
theorem update_dist {s : SceneState} {t : Point} (delta : ℝ)
    (hm : s.isMoving = true) (ht : s.targetPosition = some t)
    (hd : ¬ distanceBetween s.kitty.x s.kitty.y t.x t.y < 5) :
    distanceBetween (update delta s).kitty.x (update delta s).kitty.y t.x t.y
      = |distanceBetween s.kitty.x s.kitty.y t.x t.y - moveSpeed * delta / 1000| := by
  have hne : distanceBetween s.kitty.x s.kitty.y t.x t.y ≠ 0 := by
    push_neg at hd
    intro h0
    rw [h0] at hd
    norm_num at hd
  rw [update_move delta hm ht hd]
  exact distance_after_step _ _ _ _ _ hne

/-- Steps shorter than twice the 5 px arrival epsilon strictly shrink the
distance while the actor is at least epsilon away. -/
theorem abs_step_lt {d m : ℝ} (hd5 : 5 ≤ d) (hm0 : 0 < m) (hm10 : m < 10) :
    |d - m| < d :=
  abs_lt.mpr ⟨by linarith, by linarith⟩

/-- Iterating ticks with a fixed per-tick step in `(0, 10)` brings the actor
within the 5 px arrival epsilon after finitely many ticks. -/
theorem reach_epsilon_aux {t : Point} (delta : ℝ)
    (hm0 : 0 < moveSpeed * delta / 1000) (hm10 : moveSpeed * delta / 1000 < 10) :
    ∀ n : ℕ, ∀ s : SceneState, s.isMoving = true → s.targetPosition = some t →
      distanceBetween s.kitty.x s.kitty.y t.x t.y <
        5 + (n : ℝ) * (moveSpeed * delta / 1000) →
      ∃ k : ℕ,
        distanceBetween ((update delta)^[k] s).kitty.x
          ((update delta)^[k] s).kitty.y t.x t.y < 5 := by
  intro n
  induction n with
  | zero =>
      intro s _ _ hlt
      refine ⟨0, ?_⟩
      simpa using hlt
  | succ n ih =>
      intro s hm ht hlt
      by_cases hd : distanceBetween s.kitty.x s.kitty.y t.x t.y < 5
      · exact ⟨0, by simpa using hd⟩
      · have hm' : (update delta s).isMoving = true := by
          rw [update_move delta hm ht hd]; exact hm
        have ht' : (update delta s).targetPosition = some t := by
          rw [update_move delta hm ht hd]; exact ht
        have hdist := update_dist delta hm ht hd
        have hbound :
            distanceBetween (update delta s).kitty.x (update delta s).kitty.y t.x t.y <
              5 + (n : ℝ) * (moveSpeed * delta / 1000) := by
          rw [hdist]
          push_neg at hd
          push_cast at hlt
          have hnm : 0 ≤ (n : ℝ) * (moveSpeed * delta / 1000) :=
            mul_nonneg (Nat.cast_nonneg n) (le_of_lt hm0)
          rcases abs_cases (distanceBetween s.kitty.x s.kitty.y t.x t.y -
              moveSpeed * delta / 1000) with ⟨he, _⟩ | ⟨he, _⟩
          · rw [he]; linarith
          · rw [he]; linarith
        obtain ⟨k, hk⟩ := ih (update delta s) hm' ht' hbound
        exact ⟨k + 1, by rwa [Function.iterate_succ_apply]⟩

/-! ### Characterizations of `handleResize` -/

theorem handleResize_of_target {s : SceneState} {t : Point} (w h : ℝ)
    (ht : s.targetPosition = some t) :
    handleResize w h s =
      { s with
        kitty := ⟨s.kitty.x / (if s.lastWidth = 0 then w else s.lastWidth) * w,
                  s.kitty.y / (if s.lastHeight = 0 then h else s.lastHeight) * h⟩,
        shadow := ⟨s.kitty.x / (if s.lastWidth = 0 then w else s.lastWidth) * w,
                   s.kitty.y / (if s.lastHeight = 0 then h else s.lastHeight) * h + 40⟩,
        targetPosition :=
          some ⟨t.x / (if s.lastWidth = 0 then w else s.lastWidth) * w,
                t.y / (if s.lastHeight = 0 then h else s.lastHeight) * h⟩,
        lastWidth := w, lastHeight := h } := by
  simp only [handleResize, ht, layoutKitty, Option.isSome_some, Bool.true_eq_false,
    and_false, if_false]

theorem handleResize_of_no_target_idle {s : SceneState} (w h : ℝ)
    (ht : s.targetPosition = none) (hm : s.isMoving = false) :
    handleResize w h s =
      { s with kitty := ⟨w / 2, h * 0.5⟩, shadow := ⟨w / 2, h * 0.5 + 40⟩,
               lastWidth := w, lastHeight := h } := by
  simp only [handleResize, ht, layoutKitty, hm, Option.isSome_none, and_self, if_true]

theorem handleResize_of_no_target_moving {s : SceneState} (w h : ℝ)
    (ht : s.targetPosition = none) (hm : s.isMoving = true) :
    handleResize w h s =
      { s with
        kitty := ⟨s.kitty.x / (if s.lastWidth = 0 then w else s.lastWidth) * w,
                  s.kitty.y / (if s.lastHeight = 0 then h else s.lastHeight) * h⟩,
        shadow := ⟨s.kitty.x / (if s.lastWidth = 0 then w else s.lastWidth) * w,
                   s.kitty.y / (if s.lastHeight = 0 then h else s.lastHeight) * h + 40⟩,
        lastWidth := w, lastHeight := h } := by
  simp only [handleResize, ht, layoutKitty, hm, Option.isSome_none, Bool.true_eq_false,
    false_and, if_false]

/-! ### Concrete fixtures for witnesses and counterexamples -/

/-- A session baseline: actor resting at `p` with its shadow attached, idle,
no target, no station binding, cached 800×600 viewport, empty arrival log. -/
noncomputable def baseState (p : Point) : SceneState :=
  { kitty := p, shadow := ⟨p.x, p.y + 40⟩, isMoving := false,
    targetPosition := none, currentStation := none, flipX := false,
    lastWidth := 800, lastHeight := 600, arrivals := [] }

/-- The table station at its 800×600 anchor (78% width, 70% height). -/
noncomputable def mesa : Station := ⟨"Mesa", ⟨624, 420⟩⟩

/-- The oven station at its 800×600 layout anchor (75% width, 18% height). -/
noncomputable def forno : Station := ⟨"Forno", ⟨600, 108⟩⟩

/-! ### Claims -/

/-- C4: once the actor has arrived (`isMoving = false`), every further
`update` call with any `deltaMs` is a no-op: the whole scene state - in
particular actor position, facing and the arrival log - is unchanged until
the next `moveTo`. -/
theorem idle_tick_noop (s : SceneState) (delta : ℝ) (hm : s.isMoving = false) :
    update delta s = s :=
  update_of_not_moving delta hm

theorem idle_tick_noop_witness :
    update 16 (baseState ⟨500, 350⟩) = baseState ⟨500, 350⟩ :=
  idle_tick_noop (baseState ⟨500, 350⟩) 16 rfl

/-- C5: `moveToPosition` clamps every raw target into the walkable
sub-rectangle `[50, width − 50] × [100, height − 50]` of the viewport and
always succeeds: it stores the clamped target and raises the moving flag. -/
theorem moveTo_clamps (width height x y : ℝ) (s : SceneState)
    (hw : 100 ≤ width) (hh : 150 ≤ height) :
    (moveToPosition width height x y s).isMoving = true ∧
    (moveToPosition width height x y s).targetPosition =
      some ⟨clamp x 50 (width - 50), clamp y 100 (height - 50)⟩ ∧
    50 ≤ clamp x 50 (width - 50) ∧ clamp x 50 (width - 50) ≤ width - 50 ∧
    100 ≤ clamp y 100 (height - 50) ∧ clamp y 100 (height - 50) ≤ height - 50 := by
  refine ⟨rfl, rfl, ?_, ?_, ?_, ?_⟩
  · exact (clamp_mem x (by linarith)).1
  · exact (clamp_mem x (by linarith)).2
  · exact (clamp_mem y (by linarith)).1
  · exact (clamp_mem y (by linarith)).2

theorem moveTo_clamps_witness :
    (moveToPosition 800 600 (-500) (-500) (baseState ⟨400, 300⟩)).targetPosition =
      some ⟨50, 100⟩ ∧
    (moveToPosition 800 600 (-500) (-500) (baseState ⟨400, 300⟩)).isMoving = true := by
  obtain ⟨h1, h2, _⟩ :=
    moveTo_clamps 800 600 (-500) (-500) (baseState ⟨400, 300⟩)
      (by norm_num) (by norm_num)
  refine ⟨?_, h1⟩
  rw [h2]
  norm_num [clamp, min_def, max_def]

/-- C9: a click dispatched to a station issues a movement order whose target
is the station's current anchor position offset by `(0, +80)` (directly
below the anchor) - exactly that point whenever it lies inside the walkable
rectangle - with the station recorded as the arrival binding. -/
theorem station_dispatch_target (width height : ℝ) (st : Station) (s : SceneState)
    (h1 : 50 ≤ st.pos.x) (h2 : st.pos.x ≤ width - 50)
    (h3 : 100 ≤ st.pos.y + 80) (h4 : st.pos.y + 80 ≤ height - 50) :
    (moveToStation width height st s).targetPosition =
      some ⟨st.pos.x, st.pos.y + 80⟩ ∧
    (moveToStation width height st s).currentStation = some st ∧
    (moveToStation width height st s).isMoving = true := by
  refine ⟨?_, rfl, rfl⟩
  show (some ⟨clamp st.pos.x 50 (width - 50), clamp (st.pos.y + 80) 100 (height - 50)⟩ :
      Option Point) = some ⟨st.pos.x, st.pos.y + 80⟩
  rw [clamp_of_mem h1 h2, clamp_of_mem h3 h4]

theorem station_dispatch_target_witness :
    (moveToStation 800 600 mesa (baseState ⟨500, 350⟩)).targetPosition =
      some ⟨624, 500⟩ ∧
    (moveToStation 800 600 mesa (baseState ⟨500, 350⟩)).currentStation = some mesa := by
  obtain ⟨h1, h2, _⟩ :=
    station_dispatch_target 800 600 mesa (baseState ⟨500, 350⟩)
      (by norm_num [mesa]) (by norm_num [mesa]) (by norm_num [mesa]) (by norm_num [mesa])
  refine ⟨?_, h2⟩
  rw [h1]
  norm_num [mesa]

/-- C6: with a nonzero cached old viewport, every resize applies independent
per-axis proportional scaling `new = old * (newDim / oldDim)` to the actor's
current position and to the in-flight movement target; when no movement was
ever issued, the subsequent `layout` recentres the idle actor, which agrees
with proportional scaling exactly at the centred rest position (the only
idle position a session without movement produces). -/
theorem resize_proportional (s : SceneState) (w h : ℝ) (t : Point)
    (hw : s.lastWidth ≠ 0) (hh : s.lastHeight ≠ 0) :
    (s.targetPosition = some t →
      (handleResize w h s).kitty.x = s.kitty.x * (w / s.lastWidth) ∧
      (handleResize w h s).kitty.y = s.kitty.y * (h / s.lastHeight) ∧
      (handleResize w h s).targetPosition =
        some ⟨t.x * (w / s.lastWidth), t.y * (h / s.lastHeight)⟩) ∧
    (s.targetPosition = none → s.isMoving = false →
      s.kitty.x = s.lastWidth / 2 → s.kitty.y = s.lastHeight / 2 →
      (handleResize w h s).kitty.x = s.kitty.x * (w / s.lastWidth) ∧
      (handleResize w h s).kitty.y = s.kitty.y * (h / s.lastHeight)) := by
  constructor
  · intro ht
    rw [handleResize_of_target w h ht]
    refine ⟨?_, ?_, ?_⟩
    · show s.kitty.x / (if s.lastWidth = 0 then w else s.lastWidth) * w = _
      rw [if_neg hw]; ring
    · show s.kitty.y / (if s.lastHeight = 0 then h else s.lastHeight) * h = _
      rw [if_neg hh]; ring
    · show some (⟨t.x / (if s.lastWidth = 0 then w else s.lastWidth) * w,
          t.y / (if s.lastHeight = 0 then h else s.lastHeight) * h⟩ : Point) = _
      rw [if_neg hw, if_neg hh]
      congr 1
      exact Point.ext (by ring) (by ring)
  · intro ht hm hx hy
    rw [handleResize_of_no_target_idle w h ht hm]
    constructor
    · show w / 2 = s.kitty.x * (w / s.lastWidth)
      rw [hx]
      field_simp
      ring
    · show h * 0.5 = s.kitty.y * (h / s.lastHeight)
      rw [hy]
      field_simp
      ring

/-- The claim C6 instance state: actor at fraction (0.5, 0.5) of a cached
1000×700 viewport, idle, no target. -/
noncomputable def c6State : SceneState :=
  { kitty := ⟨500, 350⟩, shadow := ⟨500, 390⟩, isMoving := false,
    targetPosition := none, currentStation := none, flipX := false,
    lastWidth := 1000, lastHeight := 700, arrivals := [] }

theorem resize_proportional_witness :
    (handleResize 2000 1400 c6State).kitty.x = 1000 ∧
    (handleResize 2000 1400 c6State).kitty.y = 700 := by
  obtain ⟨-, h2⟩ := resize_proportional c6State 2000 1400 ⟨0, 0⟩
    (by norm_num [c6State]) (by norm_num [c6State])
  obtain ⟨hx, hy⟩ := h2 rfl rfl (by norm_num [c6State]) (by norm_num [c6State])
  constructor
  · rw [hx]; norm_num [c6State]
  · rw [hy]; norm_num [c6State]

/-- C7: rescale has no failure mode when the cached old viewport dimensions
are zero: `lastWidth || width` and `lastHeight || height` substitute the new
dimensions, so (for a nonzero new viewport) the rescale is the identity on
the actor position and on any in-flight target instead of dividing by
zero. -/
theorem resize_zero_old_identity (s : SceneState) (w h : ℝ) (t : Point)
    (hw0 : s.lastWidth = 0) (hh0 : s.lastHeight = 0) (hw : w ≠ 0) (hh : h ≠ 0)
    (ht : s.targetPosition = some t) :
    (handleResize w h s).kitty = s.kitty ∧
    (handleResize w h s).targetPosition = some t := by
  rw [handleResize_of_target w h ht]
  rw [if_pos hw0, if_pos hh0]
  refine ⟨Point.ext (div_mul_cancel₀ _ hw) (div_mul_cancel₀ _ hh), ?_⟩
  show some (⟨t.x / w * w, t.y / h * h⟩ : Point) = some t
  have hP : (⟨t.x / w * w, t.y / h * h⟩ : Point) = t :=
    Point.ext (div_mul_cancel₀ t.x hw) (div_mul_cancel₀ t.y hh)
  rw [hP]

/-- A mid-flight state whose cached viewport was never initialized. -/
noncomputable def c7State : SceneState :=
  { kitty := ⟨500, 350⟩, shadow := ⟨500, 390⟩, isMoving := true,
    targetPosition := some ⟨600, 400⟩, currentStation := none, flipX := false,
    lastWidth := 0, lastHeight := 0, arrivals := [] }

theorem resize_zero_old_identity_witness :
    (handleResize 800 600 c7State).kitty = c7State.kitty ∧
    (handleResize 800 600 c7State).targetPosition = some ⟨600, 400⟩ :=
  resize_zero_old_identity c7State 800 600 ⟨600, 400⟩ rfl rfl
    (by norm_num) (by norm_num) rfl

/-- C10: after every operation that moves the actor - a tick that acts
(covering both the kinematic step and the arrival snap) and every resize -
the shadow ellipse sits at the actor position offset by exactly
`(0, +40)` pixels. -/
theorem shadow_offset_invariant (s : SceneState) (delta w h : ℝ) :
    (s.isMoving = true → s.targetPosition.isSome = true →
      (update delta s).shadow.x = (update delta s).kitty.x ∧
      (update delta s).shadow.y = (update delta s).kitty.y + 40) ∧
    ((handleResize w h s).shadow.x = (handleResize w h s).kitty.x ∧
     (handleResize w h s).shadow.y = (handleResize w h s).kitty.y + 40) := by
  constructor
  · intro hm ht
    obtain ⟨t, htt⟩ := Option.isSome_iff_exists.mp ht
    by_cases hd : distanceBetween s.kitty.x s.kitty.y t.x t.y < 5
    · rcases hst : s.currentStation with _ | st
      · rw [update_arrival_free delta hm htt hst hd]
        exact ⟨rfl, rfl⟩
      · rw [update_arrival_station delta hm htt hst hd]
        exact ⟨rfl, rfl⟩
    · rw [update_move delta hm htt hd]
      exact ⟨rfl, rfl⟩
  · rcases htp : s.targetPosition with _ | t
    · rcases hmov : s.isMoving with _ | _
      · rw [handleResize_of_no_target_idle w h htp hmov]
        exact ⟨rfl, rfl⟩
      · rw [handleResize_of_no_target_moving w h htp hmov]
        exact ⟨rfl, rfl⟩
    · rw [handleResize_of_target w h htp]
      exact ⟨rfl, rfl⟩

/-- A moving state 2 px from its target, used to exercise the snap branch. -/
noncomputable def c10State : SceneState :=
  { kitty := ⟨400, 300⟩, shadow := ⟨400, 340⟩, isMoving := true,
    targetPosition := some ⟨400, 302⟩, currentStation := none, flipX := false,
    lastWidth := 800, lastHeight := 600, arrivals := [] }

theorem shadow_offset_invariant_witness :
    ((update 16 c10State).shadow.x = (update 16 c10State).kitty.x ∧
     (update 16 c10State).shadow.y = (update 16 c10State).kitty.y + 40) ∧
    ((handleResize 1600 1200 c10State).shadow.x =
       (handleResize 1600 1200 c10State).kitty.x ∧
     (handleResize 1600 1200 c10State).shadow.y =
       (handleResize 1600 1200 c10State).kitty.y + 40) := by
  obtain ⟨h1, h2⟩ := shadow_offset_invariant c10State 16 1600 1200
  exact ⟨h1 rfl rfl, h2⟩

/-- C1 counterexample: a free-movement cycle (`moveToPosition` with no
station, followed by arrival) fires the station-arrival callback once - not
zero times - because `moveToPosition` does not clear `currentStation` left
over from a superseded station-bound move. -/
theorem free_cycle_fires_callback :
    (moveToPosition 800 600 500 352
        (moveToStation 800 600 mesa (baseState ⟨500, 350⟩))).currentStation =
      some mesa ∧
    (runTicks [16] (moveToPosition 800 600 500 352
        (moveToStation 800 600 mesa (baseState ⟨500, 350⟩)))).arrivals =
      ["Mesa"] := by
  have hs2 : moveToPosition 800 600 500 352
      (moveToStation 800 600 mesa (baseState ⟨500, 350⟩)) =
      { kitty := ⟨500, 350⟩, shadow := ⟨500, 390⟩, isMoving := true,
        targetPosition := some ⟨500, 352⟩, currentStation := some mesa,
        flipX := false, lastWidth := 800, lastHeight := 600, arrivals := [] } := by
    norm_num [moveToPosition, moveToStation, baseState, clamp, min_def, max_def]
  rw [hs2]
  refine ⟨rfl, ?_⟩
  rw [runTicks_cons, runTicks_nil]
  rw [update_arrival_station 16 rfl rfl rfl
    (by show distanceBetween 500 350 500 352 < 5
        rw [distanceBetween_same_x]; norm_num)]
  simp [mesa]

/-- C1 (amended): the station-arrival callback fires exactly once per
station-bound `moveTo`→arrival cycle (and not at all while still moving);
it fires zero times for a free-movement cycle provided no station binding
from a superseded station-bound intent is pending (`currentStation = none`)
when the free `moveTo` is issued. -/
theorem station_callback_exactness (width height x y : ℝ) (st : Station)
    (s s0 : SceneState) (ds es : List ℝ) (h0 : s0.currentStation = none) :
    (runTicks ds (moveToStation width height st s)).arrivals =
      s.arrivals ++
        (if (runTicks ds (moveToStation width height st s)).isMoving then []
         else [st.name]) ∧
    (runTicks es (moveToPosition width height x y s0)).arrivals = s0.arrivals := by
  constructor
  · exact arrivals_station_run ds _ rfl rfl rfl
  · exact (arrivals_free_run es (moveToPosition width height x y s0) h0).1

theorem station_callback_exactness_witness :
    (runTicks [380, 16] (moveToStation 800 600 mesa (baseState ⟨500, 350⟩))).arrivals =
      (baseState ⟨500, 350⟩).arrivals ++
        (if (runTicks [380, 16]
              (moveToStation 800 600 mesa (baseState ⟨500, 350⟩))).isMoving then []
         else [mesa.name]) ∧
    (runTicks [16] (moveToPosition 800 600 300 300 (baseState ⟨500, 350⟩))).arrivals =
      (baseState ⟨500, 350⟩).arrivals :=
  station_callback_exactness 800 600 300 300 mesa (baseState ⟨500, 350⟩)
    (baseState ⟨500, 350⟩) [380, 16] [16] rfl

/-- C2 counterexample: a station-bound intent superseded by a free
`moveToPosition` is not discarded entirely - the new target replaces the
old one, but `currentStation` keeps the old station, and that station's
callback fires upon arrival at the new (free) target. -/
theorem supersession_counterexample :
    (moveToPosition 800 600 400 302
        (moveToStation 800 600 forno (baseState ⟨400, 300⟩))).targetPosition =
      some ⟨400, 302⟩ ∧
    (moveToPosition 800 600 400 302
        (moveToStation 800 600 forno (baseState ⟨400, 300⟩))).currentStation =
      some forno ∧
    (runTicks [16] (moveToPosition 800 600 400 302
        (moveToStation 800 600 forno (baseState ⟨400, 300⟩)))).arrivals =
      ["Forno"] := by
  have hs2 : moveToPosition 800 600 400 302
      (moveToStation 800 600 forno (baseState ⟨400, 300⟩)) =
      { kitty := ⟨400, 300⟩, shadow := ⟨400, 340⟩, isMoving := true,
        targetPosition := some ⟨400, 302⟩, currentStation := some forno,
        flipX := false, lastWidth := 800, lastHeight := 600, arrivals := [] } := by
    norm_num [moveToPosition, moveToStation, baseState, clamp, min_def, max_def]
  rw [hs2]
  refine ⟨rfl, rfl, ?_⟩
  rw [runTicks_cons, runTicks_nil]
  rw [update_arrival_station 16 rfl rfl rfl
    (by show distanceBetween 400 300 400 302 < 5
        rw [distanceBetween_same_x]; norm_num)]
  simp [forno]

/-- C2 (amended): calling `moveToPosition` while already moving replaces the
stored target (subsequent ticks steer toward the new target only), but does
not clear the station binding: a station-bound intent superseded by a free
`moveToPosition` keeps `currentStation = some st`, and that station's
callback fires exactly once upon arrival at the new target. -/
theorem supersession_keeps_binding (width height x y : ℝ) (st : Station)
    (s : SceneState) (ds : List ℝ) (_hm : s.isMoving = true)
    (hst : s.currentStation = some st) :
    (moveToPosition width height x y s).targetPosition =
      some ⟨clamp x 50 (width - 50), clamp y 100 (height - 50)⟩ ∧
    (moveToPosition width height x y s).currentStation = some st ∧
    (runTicks ds (moveToPosition width height x y s)).arrivals =
      s.arrivals ++
        (if (runTicks ds (moveToPosition width height x y s)).isMoving then []
         else [st.name]) := by
  refine ⟨rfl, hst, ?_⟩
  exact arrivals_station_run ds _ rfl rfl hst

theorem supersession_keeps_binding_witness :
    (moveToPosition 800 600 420 310
        (moveToStation 800 600 forno (baseState ⟨420, 308⟩))).targetPosition =
      some ⟨clamp 420 50 (800 - 50), clamp 310 100 (600 - 50)⟩ ∧
    (moveToPosition 800 600 420 310
        (moveToStation 800 600 forno (baseState ⟨420, 308⟩))).currentStation =
      some forno ∧
    (runTicks [16] (moveToPosition 800 600 420 310
        (moveToStation 800 600 forno (baseState ⟨420, 308⟩)))).arrivals =
      (moveToStation 800 600 forno (baseState ⟨420, 308⟩)).arrivals ++
        (if (runTicks [16] (moveToPosition 800 600 420 310
              (moveToStation 800 600 forno (baseState ⟨420, 308⟩)))).isMoving then []
         else [forno.name]) :=
  supersession_keeps_binding 800 600 420 310 forno
    (moveToStation 800 600 forno (baseState ⟨420, 308⟩)) [16] rfl rfl

/-- C3 counterexample: on an arrival tick the actor snaps and the moving
flag drops, but the stored target is not cleared - `targetPosition` still
holds the arrival point instead of becoming `none`. -/
theorem arrival_keeps_target_counterexample :
    (update 16 (moveToPosition 800 600 300 302 (baseState ⟨300, 300⟩))).isMoving =
      false ∧
    (update 16 (moveToPosition 800 600 300 302 (baseState ⟨300, 300⟩))).kitty =
      ⟨300, 302⟩ ∧
    (update 16 (moveToPosition 800 600 300 302 (baseState ⟨300, 300⟩))).targetPosition =
      some ⟨300, 302⟩ ∧
    (update 16 (moveToPosition 800 600 300 302 (baseState ⟨300, 300⟩))).targetPosition ≠
      none := by
  have hs1 : moveToPosition 800 600 300 302 (baseState ⟨300, 300⟩) =
      { kitty := ⟨300, 300⟩, shadow := ⟨300, 340⟩, isMoving := true,
        targetPosition := some ⟨300, 302⟩, currentStation := none,
        flipX := false, lastWidth := 800, lastHeight := 600, arrivals := [] } := by
    norm_num [moveToPosition, baseState, clamp, min_def, max_def]
  rw [hs1]
  rw [update_arrival_free 16 rfl rfl rfl
    (by show distanceBetween 300 300 300 302 < 5
        rw [distanceBetween_same_x]; norm_num)]
  refine ⟨rfl, rfl, rfl, by simp⟩

/-- C3 (amended): on a tick with distance below 5 px the controller snaps
the actor onto the target, drops the moving flag, fires the arrival
callback exactly when a station binding is present (and clears the
binding), but does not clear the intent: the stored `targetPosition`
remains the arrival point rather than becoming `none`. -/
theorem arrival_tick_behavior (s : SceneState) (t : Point) (delta : ℝ)
    (hm : s.isMoving = true) (ht : s.targetPosition = some t)
    (hd : distanceBetween s.kitty.x s.kitty.y t.x t.y < 5) :
    (update delta s).kitty = t ∧ (update delta s).isMoving = false ∧
    (update delta s).targetPosition = some t ∧
    (update delta s).currentStation = none ∧
    (update delta s).arrivals =
      s.arrivals ++ (match s.currentStation with
                     | some st => [st.name]
                     | none => []) := by
  rcases hst : s.currentStation with _ | st
  · rw [update_arrival_free delta hm ht hst hd]
    exact ⟨rfl, rfl, ht, hst, by simp [hst]⟩
  · rw [update_arrival_station delta hm ht hst hd]
    exact ⟨rfl, rfl, ht, rfl, by simp [hst]⟩

theorem arrival_tick_behavior_witness :
    (update 16 (moveToPosition 800 600 700 402 (baseState ⟨700, 400⟩))).kitty =
      ⟨700, 402⟩ ∧
    (update 16 (moveToPosition 800 600 700 402 (baseState ⟨700, 400⟩))).isMoving =
      false ∧
    (update 16 (moveToPosition 800 600 700 402 (baseState ⟨700, 400⟩))).targetPosition =
      some ⟨700, 402⟩ := by
  obtain ⟨h1, h2, h3, -, -⟩ :=
    arrival_tick_behavior (moveToPosition 800 600 700 402 (baseState ⟨700, 400⟩))
      ⟨700, 402⟩ 16 rfl
      (by norm_num [moveToPosition, baseState, clamp, min_def, max_def])
      (by show distanceBetween 700 400 700 402 < 5
          rw [distanceBetween_same_x]; norm_num)
  exact ⟨h1, h2, h3⟩

/-- A reachable mid-flight state: actor at (400, 300), clamped target
(400, 400) on an 800×600 viewport, 100 px from arrival. -/
noncomputable def c8State : SceneState :=
  { kitty := ⟨400, 300⟩, shadow := ⟨400, 340⟩, isMoving := true,
    targetPosition := some ⟨400, 400⟩, currentStation := none, flipX := false,
    lastWidth := 800, lastHeight := 600, arrivals := [] }

/-- C8 counterexample: a tick with `deltaMs = 10000 > 0` makes the actor
overshoot the target: the distance to the target grows from 100 px to
1900 px, so the distance does not strictly decrease for every positive
`deltaMs`. -/
theorem overshoot_counterexample :
    c8State = moveToPosition 800 600 400 400 (baseState ⟨400, 300⟩) ∧
    distanceBetween c8State.kitty.x c8State.kitty.y 400 400 = 100 ∧
    distanceBetween (update 10000 c8State).kitty.x (update 10000 c8State).kitty.y
      400 400 = 1900 := by
  refine ⟨?_, ?_, ?_⟩
  · norm_num [moveToPosition, baseState, clamp, min_def, max_def, c8State]
  · show distanceBetween 400 300 400 400 = 100
    rw [distanceBetween_same_x]; norm_num
  · have hd : ¬ distanceBetween c8State.kitty.x c8State.kitty.y
        ((⟨400, 400⟩ : Point)).x ((⟨400, 400⟩ : Point)).y < 5 := by
      show ¬ distanceBetween 400 300 400 400 < 5
      rw [distanceBetween_same_x]; norm_num
    have h2 := update_dist (s := c8State) (t := ⟨400, 400⟩) 10000 rfl rfl hd
    show distanceBetween (update 10000 c8State).kitty.x (update 10000 c8State).kitty.y
      ((⟨400, 400⟩ : Point)).x ((⟨400, 400⟩ : Point)).y = 1900
    rw [h2]
    rw [show distanceBetween c8State.kitty.x c8State.kitty.y
        ((⟨400, 400⟩ : Point)).x ((⟨400, 400⟩ : Point)).y = 100 from by
      show distanceBetween 400 300 400 400 = 100
      rw [distanceBetween_same_x]; norm_num]
    rw [show (100 : ℝ) - moveSpeed * 10000 / 1000 = -1900 by norm_num [moveSpeed]]
    rw [abs_neg]
    exact abs_of_nonneg (by norm_num)

/-- C8 (amended): for ticks whose step `moveSpeed * deltaMs / 1000` lies in
`(0, 10)` - below twice the 5 px arrival epsilon, i.e. `deltaMs < 50` ms at
200 px/s - the distance to the target strictly decreases on every tick taken
at least 5 px away, and iterating ticks with such a fixed delta brings the
actor below the 5 px arrival epsilon after finitely many steps.  For larger
steps the actor can overshoot and the distance can grow. -/
theorem arrival_convergence_bounded_step (s : SceneState) (t : Point) (delta : ℝ)
    (hm : s.isMoving = true) (ht : s.targetPosition = some t)
    (h0 : 0 < moveSpeed * delta / 1000) (h10 : moveSpeed * delta / 1000 < 10) :
    (5 ≤ distanceBetween s.kitty.x s.kitty.y t.x t.y →
      distanceBetween (update delta s).kitty.x (update delta s).kitty.y t.x t.y <
        distanceBetween s.kitty.x s.kitty.y t.x t.y) ∧
    ∃ n : ℕ, distanceBetween ((update delta)^[n] s).kitty.x
      ((update delta)^[n] s).kitty.y t.x t.y < 5 := by
  constructor
  · intro hd5
    have hd : ¬ distanceBetween s.kitty.x s.kitty.y t.x t.y < 5 := not_lt.mpr hd5
    rw [update_dist delta hm ht hd]
    exact abs_step_lt hd5 h0 h10
  · obtain ⟨n, hn⟩ := exists_nat_gt
      ((distanceBetween s.kitty.x s.kitty.y t.x t.y - 5) / (moveSpeed * delta / 1000))
    refine reach_epsilon_aux delta h0 h10 n s hm ht ?_
    rw [div_lt_iff₀ h0] at hn
    linarith

theorem arrival_convergence_bounded_step_witness :
    (5 ≤ distanceBetween 400 300 400 400 →
      distanceBetween (update 16 c8State).kitty.x (update 16 c8State).kitty.y
        400 400 < distanceBetween 400 300 400 400) ∧
    ∃ n : ℕ, distanceBetween ((update 16)^[n] c8State).kitty.x
      ((update 16)^[n] c8State).kitty.y 400 400 < 5 :=
  arrival_convergence_bounded_step c8State ⟨400, 400⟩ 16 rfl rfl
    (by norm_num [moveSpeed]) (by norm_num [moveSpeed])
